import Mathlib

/-!
Verification of the `win_etw` repository's logging facade and provider error
surface against its specification.

Source files embedded:
- `src/win_etw_provider/src/lib.rs` — the crate's public `Error` enum.
- `src/win_etw_logger/src/lib.rs` — `TraceLogger`, its flag setters and
  getters, the `log::Log` implementation produced by `impl_log_levels!`,
  and the `RustLogProvider` trait declaration.

Modelling conventions: machine integers (`u32`) become `Nat` (no arithmetic on
them occurs, so no overflow is possible); the two `AtomicBool` fields become
plain booleans with explicit state passing (all embedded code is sequential);
side effects of `log` (calls on the generated provider methods) are returned
explicitly as a list of `Emission` values. Code of this repository that is not
under `src/` (the macro-generated provider) is modelled from the spec and
marked as such in its doc comment.
-/

namespace WinEtw

/-- Public error type of the `win_etw_provider` crate
(src/win_etw_provider/src/lib.rs, lines 22-26): an enum with the single
variant `WindowsError`, documented as carrying "A Windows (Win32) error code"
(`u32`, modelled as `Nat`). -/
inductive ProviderError where
  | WindowsError (code : Nat)
deriving DecidableEq

/-- The Win32 code carried by a provider error value. -/
def ProviderError.code : ProviderError → Nat
  | ProviderError.WindowsError c => c

/-- Modelled from the spec: the provider-registration path lives in
`provider.rs`, which is not under src/. Per spec section 6 the registration
call returns an OS-level numeric error code on failure, and per section 7 that
failure is surfaced to the caller through the crate's public error type; the
only constructor of that type (src/win_etw_provider/src/lib.rs) is
`WindowsError`, so a registration failure with OS code `osCode` surfaces as
`WindowsError osCode`. -/
def registrationFailureValue (osCode : Nat) : ProviderError :=
  ProviderError.WindowsError osCode

/-- Modelled from the spec: the event-submission path lives in `provider.rs`,
which is not under src/. Per spec sections 6 and 7 a submission failure
returns an OS-level numeric error code surfaced through the crate's public
error type, whose only constructor is `WindowsError`. -/
def submitFailureValue (osCode : Nat) : ProviderError :=
  ProviderError.WindowsError osCode

/-- Severity levels of the `log` crate (`log::Level`). -/
inductive Level where
  | Error
  | Warn
  | Info
  | Debug
  | Trace
deriving DecidableEq

/-- The part of `log::Metadata` that `TraceLogger` consults: the severity
level (`metadata.level()`). -/
structure Metadata where
  level : Level
deriving DecidableEq

/-- A log record (`log::Record`): its metadata, optional module path, optional
source file and line, and the format arguments. `record.args().to_string()`
renders the arguments; we model `args` as the rendered text directly. -/
structure Record where
  metadata : Metadata
  modulePath : Option String
  file : Option String
  line : Option Nat
  args : String
deriving DecidableEq

/-- Names of the five events declared on the `RustLogProvider` trait
(src/win_etw_logger/src/lib.rs, lines 103-111). -/
inductive EventName where
  | error
  | warn
  | info
  | debug
  | trace
deriving DecidableEq

/-- Modelled from the spec: the 128-bit activity identifier (spec section 3).
The logger only ever passes `None` for it, so the representation is
immaterial; we keep an abstract numeric value. -/
structure Guid where
  value : Nat
deriving DecidableEq

/-- One event-emission call made on a generated `RustLogProvider` method:
which event was invoked and the arguments passed, mirroring
`self.provider.<event>(None, module_path, file_path, file_line, &message)`
in the source (src/win_etw_logger/src/lib.rs, line 91). -/
structure Emission where
  event : EventName
  activityId : Option Guid
  modulePath : String
  filePath : String
  fileLine : Nat
  message : String
deriving DecidableEq

/-- Modelled from the spec: the provider generated from the `RustLogProvider`
trait by `win_etw_macros::trace_logging_events` (generated code, not under
src/). `emitResult` is the submission outcome the tracing subsystem reports
for one emission call (`none` = success; per spec section 4.5 a submission
failure is reported as a value and never escalated to a panic or abort).
`log_is_enabled` is the controller-reported enablement state (spec section
4.5); the source's `enabled` implementation has the query commented out. -/
structure RustLogProvider where
  emitResult : Emission → Option ProviderError
  log_is_enabled : Bool

/-- `TraceLogger` (src/win_etw_logger/src/lib.rs, lines 14-18): the registered
provider together with the two `AtomicBool` gating flags, modelled as plain
booleans. The Rust getters `log_module_path()` / `log_file_path()` are atomic
loads of these fields; in the sequential embedding they coincide with the
field accessors. -/
structure TraceLogger where
  provider : RustLogProvider
  log_module_path : Bool
  log_file_path : Bool

/-- `TraceLogger::new` (lines 22-29): runs `RustLogProvider::new()?` and on
success constructs the logger with both flags `true`. The provider
constructor is macro-generated code not under src/, so its outcome is taken
as the argument `providerNew`; the `?` operator propagates its error
unchanged. -/
def TraceLogger.new (providerNew : Except ProviderError RustLogProvider) :
    Except ProviderError TraceLogger :=
  match providerNew with
  | Except.error e => Except.error e
  | Except.ok provider =>
      Except.ok { provider := provider, log_module_path := true, log_file_path := true }

/-- `TraceLogger::set_log_module_path` (lines 34-36): stores `value` into the
module-path flag. -/
def TraceLogger.set_log_module_path (s : TraceLogger) (value : Bool) : TraceLogger :=
  { s with log_module_path := value }

/-- `TraceLogger::set_log_file_path` (lines 41-43): stores `value` into the
file-path flag. -/
def TraceLogger.set_log_file_path (s : TraceLogger) (value : Bool) : TraceLogger :=
  { s with log_file_path := value }

/-- `log::Log::enabled` for `TraceLogger` (lines 63-65): returns `true`
unconditionally; the provider enablement query appears only as a comment in
the source. -/
def TraceLogger.enabled (_s : TraceLogger) (_metadata : Metadata) : Bool :=
  true

/-- The single emission `TraceLogger::log` builds for `record`
(lines 67-95): module path gated by the module-path flag (empty string when
the flag is off or the record has none), file path and line gated together by
the file-path flag (with `""` and `0` fallbacks), the rendered message, and
the event selected by matching on `record.metadata().level()`; the activity
id passed is `None`. -/
def TraceLogger.logEmission (s : TraceLogger) (record : Record) : Emission :=
  let module_path := if s.log_module_path then record.modulePath.getD "" else ""
  let fl := if s.log_file_path then (record.file.getD "", record.line.getD 0) else ("", 0)
  let message := record.args
  match record.metadata.level with
  | Level.Error => ⟨EventName.error, none, module_path, fl.1, fl.2, message⟩
  | Level.Warn => ⟨EventName.warn, none, module_path, fl.1, fl.2, message⟩
  | Level.Info => ⟨EventName.info, none, module_path, fl.1, fl.2, message⟩
  | Level.Debug => ⟨EventName.debug, none, module_path, fl.1, fl.2, message⟩
  | Level.Trace => ⟨EventName.trace, none, module_path, fl.1, fl.2, message⟩

/-- `log::Log::log` for `TraceLogger` (lines 67-95). The Rust method returns
`()`. Its effects are made explicit: the second component is the list of
emission calls made on the provider, and the `Except` channel would carry an
error or panic escaping the body — there is none: the provider call is in
statement position and its result is discarded, mirroring the source. -/
def TraceLogger.log (s : TraceLogger) (record : Record) :
    Except ProviderError Unit × List Emission :=
  let em := s.logEmission record
  let _ := s.provider.emitResult em
  (Except.ok (), [em])

/-- `log::Log::flush` for `TraceLogger` (line 97): does nothing. -/
def TraceLogger.flush (_s : TraceLogger) : Unit :=
  ()

/-- The severity-to-event routing the spec requires of the facade: each of the
five levels to the equally named declared event. -/
def eventForLevel : Level → EventName
  | Level.Error => EventName.error
  | Level.Warn => EventName.warn
  | Level.Info => EventName.info
  | Level.Debug => EventName.debug
  | Level.Trace => EventName.trace

/-- Rust argument types appearing in the `RustLogProvider` trait declaration
(`&str` and `u32`). -/
inductive RustTy where
  | refStr
  | u32Ty
deriving DecidableEq

/-- Decoded field types of a metadata blob, as named in the spec's concrete
scenario (section 8): the UTF-16 string type and the 32-bit unsigned type. -/
inductive MetaFieldTy where
  | utf16StringType
  | u32Type
deriving DecidableEq

/-- The `RustLogProvider` trait declaration (src/win_etw_logger/src/lib.rs,
lines 103-111): each of the five declared events with its ordered
(field name, Rust type) list, exactly as written in the source. -/
def rustLogProviderEvents : List (String × List (String × RustTy)) :=
  [ ("error", [("module_path", RustTy.refStr), ("file", RustTy.refStr),
      ("line", RustTy.u32Ty), ("message", RustTy.refStr)]),
    ("warn", [("module_path", RustTy.refStr), ("file", RustTy.refStr),
      ("line", RustTy.u32Ty), ("message", RustTy.refStr)]),
    ("info", [("module_path", RustTy.refStr), ("file", RustTy.refStr),
      ("line", RustTy.u32Ty), ("message", RustTy.refStr)]),
    ("debug", [("module_path", RustTy.refStr), ("file", RustTy.refStr),
      ("line", RustTy.u32Ty), ("message", RustTy.refStr)]),
    ("trace", [("module_path", RustTy.refStr), ("file", RustTy.refStr),
      ("line", RustTy.u32Ty), ("message", RustTy.refStr)]) ]

/-- Modelled from the spec: the type-system mapping (sections 4.2 and 8) the
macro-generated metadata encoder applies — `&str` fields decode as the UTF-16
string type, `u32` as the 32-bit unsigned type. -/
def rustTyMeta : RustTy → MetaFieldTy
  | RustTy.refStr => MetaFieldTy.utf16StringType
  | RustTy.u32Ty => MetaFieldTy.u32Type

/-- Modelled from the spec: the decoded field list of an event's metadata blob
is its declared field list under the type mapping (section 4.3: construction
is purely structural over the field descriptor sequence). -/
def decodedFieldList (fields : List (String × RustTy)) : List (String × MetaFieldTy) :=
  fields.map (fun f => (f.1, rustTyMeta f.2))

/-- Modelled from the spec: a data descriptor list for one emission is
[schema blob entry] followed by one entry per field in declared order
(section 4.4), so its length is `1 + fields.length`. -/
def dataDescriptorCount (fields : List (String × RustTy)) : Nat :=
  1 + fields.length

/-- A provider whose submissions all succeed (sample value for witnesses). -/
def sampleProviderOk : RustLogProvider :=
  ⟨fun _ => none, true⟩

/-- A provider whose submissions all fail with Win32 code 31 (sample value for
witnesses). -/
def sampleProviderFailing : RustLogProvider :=
  ⟨fun _ => some (ProviderError.WindowsError 31), true⟩

/-- The logger `TraceLogger::new` constructs over `sampleProviderOk`. -/
def sampleLogger : TraceLogger :=
  ⟨sampleProviderOk, true, true⟩

/-- A logger over the failing provider, both flags on. -/
def sampleFailLogger : TraceLogger :=
  ⟨sampleProviderFailing, true, true⟩

/-- The spec's concrete scenario record: level Info, module path `crate::mod`,
file `lib.rs`, line 42, message `hello`. -/
def sampleRecord : Record :=
  ⟨⟨Level.Info⟩, some "crate::mod", some "lib.rs", some 42, "hello"⟩

/-- Claim C1: for every log record, `TraceLogger::log` makes exactly one
event-emission call, and the event invoked is determined by the record's
severity — `Error` invokes the `error` event, `Warn` the `warn` event, `Info`
the `info` event, `Debug` the `debug` event, `Trace` the `trace` event. -/
theorem log_routes_level_to_event (s : TraceLogger) (r : Record) :
    (s.log r).2.map Emission.event = [eventForLevel r.metadata.level] := by
  cases hl : r.metadata.level <;>
    simp [TraceLogger.log, TraceLogger.logEmission, eventForLevel, hl]

/-- Claim C2: the arguments `TraceLogger::log` passes to its single emission
call are the record's module path when the module-path flag is on and the
record has one (empty string otherwise); the record's file and line when the
file-path flag is on (empty string / 0 for a missing file / line) and `""` / 0
when the flag is off; and the record's rendered message text. -/
theorem log_emission_arguments (s : TraceLogger) (r : Record) :
    (s.log r).2 = [s.logEmission r] ∧
    (s.logEmission r).modulePath =
      (match s.log_module_path, r.modulePath with
       | true, some mp => mp
       | true, none => ""
       | false, _ => "") ∧
    (s.logEmission r).filePath =
      (match s.log_file_path, r.file with
       | true, some f => f
       | true, none => ""
       | false, _ => "") ∧
    (s.logEmission r).fileLine =
      (match s.log_file_path, r.line with
       | true, some n => n
       | true, none => 0
       | false, _ => 0) ∧
    (s.logEmission r).message = r.args := by
  obtain ⟨p, lm, lf⟩ := s
  obtain ⟨⟨lvl⟩, mp, fp, ln, msg⟩ := r
  cases lm <;> cases lf <;> cases lvl <;> cases mp <;> cases fp <;> cases ln <;>
    simp [TraceLogger.log, TraceLogger.logEmission]

/-- Claim C3: a `TraceLogger` returned by `TraceLogger::new` has both gating
flags set: immediately after successful construction `log_module_path()` and
`log_file_path()` both return `true`. -/
theorem new_defaults_flags_true (providerNew : Except ProviderError RustLogProvider)
    (lg : TraceLogger) (h : TraceLogger.new providerNew = Except.ok lg) :
    lg.log_module_path = true ∧ lg.log_file_path = true := by
  cases providerNew with
  | error e => exact absurd h (by simp [TraceLogger.new])
  | ok p =>
      have hlg : lg = { provider := p, log_module_path := true, log_file_path := true } := by
        simpa [TraceLogger.new] using h.symm
      subst hlg
      exact ⟨rfl, rfl⟩

/-- Witness for claim C3 at a concrete successful construction. -/
theorem new_defaults_flags_true_witness :
    sampleLogger.log_module_path = true ∧ sampleLogger.log_file_path = true :=
  new_defaults_flags_true (Except.ok sampleProviderOk) sampleLogger rfl

/-- Claim C4: `TraceLogger::log` returns unit for every record — even when the
underlying submission reports a failure, `log` completes normally with the
error discarded, never returned and never escalated to a panic (the `Except`
channel of the embedding stays `ok ()`). -/
theorem log_discards_submit_failure (s : TraceLogger) (r : Record) (err : ProviderError)
    (_h : s.provider.emitResult (s.logEmission r) = some err) :
    s.log r = (Except.ok (), [s.logEmission r]) :=
  rfl

/-- Witness for claim C4: a provider whose submission fails with code 31 still
sees `log` return normally. -/
theorem log_discards_submit_failure_witness :
    sampleFailLogger.log sampleRecord =
      (Except.ok (), [sampleFailLogger.logEmission sampleRecord]) :=
  log_discards_submit_failure sampleFailLogger sampleRecord
    (ProviderError.WindowsError 31) rfl

/-- Claim C5: `TraceLogger::new` returns an error exactly when provider
registration fails, propagating the registration error unchanged and
constructing no logger; on success it returns `Ok` with a constructed
logger. -/
theorem new_propagates_registration_error (e : ProviderError) (p : RustLogProvider) :
    TraceLogger.new (Except.error e) = Except.error e ∧
    TraceLogger.new (Except.ok p) =
      Except.ok { provider := p, log_module_path := true, log_file_path := true } :=
  ⟨rfl, rfl⟩

/-- Claim C6, counterexample: the claim asserts that `RegistrationError(code)`
and `SubmitError(code)` are distinct caller-observable values of the provider
crate's public error type; in the code both surface as `WindowsError(code)`,
so at OS code 5 the two values coincide. -/
theorem registration_and_submit_error_values_coincide :
    registrationFailureValue 5 = submitFailureValue 5 :=
  rfl

/-- Claim C6, amended: the provider crate's public error type is a
single-variant enum — every value is `WindowsError` of its Win32 code, and
registration and submission failures with the same OS code yield equal
values, distinguishable only by that numeric code. -/
theorem provider_error_single_variant (e : ProviderError) (c : Nat) :
    e = ProviderError.WindowsError e.code ∧
    registrationFailureValue c = ProviderError.WindowsError c ∧
    submitFailureValue c = ProviderError.WindowsError c := by
  refine ⟨?_, rfl, rfl⟩
  cases e
  rfl

/-- Claim C7: each of the five declared log events has exactly the ordered
field list (module_path, file, line, message), decoding to
[("module_path", UTF16-string), ("file", UTF16-string), ("line", u32),
("message", UTF16-string)] with a data descriptor list of length 5. -/
theorem declared_events_decode_to_spec_fields (ev : String × List (String × RustTy))
    (h : ev ∈ rustLogProviderEvents) :
    decodedFieldList ev.2 =
      [("module_path", MetaFieldTy.utf16StringType), ("file", MetaFieldTy.utf16StringType),
       ("line", MetaFieldTy.u32Type), ("message", MetaFieldTy.utf16StringType)] ∧
    dataDescriptorCount ev.2 = 5 := by
  fin_cases h <;> exact ⟨rfl, rfl⟩

/-- Witness for claim C7 at the declared `error` event. -/
theorem declared_events_decode_to_spec_fields_witness :
    decodedFieldList [("module_path", RustTy.refStr), ("file", RustTy.refStr),
        ("line", RustTy.u32Ty), ("message", RustTy.refStr)] =
      [("module_path", MetaFieldTy.utf16StringType), ("file", MetaFieldTy.utf16StringType),
       ("line", MetaFieldTy.u32Type), ("message", MetaFieldTy.utf16StringType)] ∧
    dataDescriptorCount [("module_path", RustTy.refStr), ("file", RustTy.refStr),
        ("line", RustTy.u32Ty), ("message", RustTy.refStr)] = 5 :=
  declared_events_decode_to_spec_fields
    ("error", [("module_path", RustTy.refStr), ("file", RustTy.refStr),
      ("line", RustTy.u32Ty), ("message", RustTy.refStr)])
    (by simp [rustLogProviderEvents])

/-- Claim C8: the two gating flags are independent — `set_log_module_path`
leaves the file-path flag and the provider untouched, and `set_log_file_path`
leaves the module-path flag and the provider untouched. -/
theorem flag_setters_independent (s : TraceLogger) (v : Bool) :
    (s.set_log_module_path v).log_file_path = s.log_file_path ∧
    (s.set_log_module_path v).provider = s.provider ∧
    (s.set_log_file_path v).log_module_path = s.log_module_path ∧
    (s.set_log_file_path v).provider = s.provider :=
  ⟨rfl, rfl, rfl, rfl⟩

/-- Claim C9: `TraceLogger`'s `log::Log::enabled` implementation returns
`true` for every metadata argument, whatever the logger's state (including
the provider's controller-reported enablement state). -/
theorem enabled_always_true (s : TraceLogger) (md : Metadata) :
    s.enabled md = true :=
  rfl

/-- Claim C10: the flag setters and getters round-trip — after
`set_log_module_path v` the module-path getter returns `v`, and after
`set_log_file_path v` the file-path getter returns `v`. -/
theorem flag_setters_getters_roundtrip (s : TraceLogger) (v : Bool) :
    (s.set_log_module_path v).log_module_path = v ∧
    (s.set_log_file_path v).log_file_path = v :=
  ⟨rfl, rfl⟩

end WinEtw
